import Mathlib

/-!
Verification development for the NovaSanctum authentication core of the
LuxCore backend (`backend/src/services/novaSanctum.service.ts` and the
security middleware).  The service's data model and operations are embedded
as pure Lean functions: the Prisma-backed store becomes an explicit `Db`
value threaded through each operation, timestamps are `Nat` milliseconds,
and the external cryptographic primitives (bcrypt comparison, SHA-256 token
hashing, fresh UUIDs) are passed in as function parameters, since the
service only uses them through their call interfaces.
-/

namespace NovaSanctum

/-- A permission row as included through `roles.permissions` in Prisma queries. -/
structure Permission where
  name : String
deriving Repr, DecidableEq

/-- A role row together with its included permissions. -/
structure Role where
  name : String
  permissions : List Permission
deriving Repr, DecidableEq

/-- A stored user row: the fields of the Prisma `user` model that the
service reads or writes (`password` holds the bcrypt hash). -/
structure UserRec where
  id : String
  email : String
  username : String
  password : String
  roles : List Role
  isActive : Bool
  isLocked : Bool
  lockedUntil : Option Nat
  failedLoginAttempts : Nat
  lastLoginAt : Option Nat
  createdAt : Nat
  updatedAt : Nat
deriving Repr, DecidableEq

/-- A stored session row; `refreshToken` holds the hash of the raw token. -/
structure SessionRec where
  id : String
  userId : String
  refreshToken : String
  ipAddress : String
  userAgent : String
  isActive : Bool
  expiresAt : Nat
  createdAt : Nat
deriving Repr, DecidableEq

/-- An audit log row; the free-form `details` record becomes an association
list of string keys and string-rendered values. -/
structure AuditEntry where
  userId : Option String
  action : String
  resource : String
  ipAddress : String
  userAgent : String
  details : List (String × String)
  timestamp : Nat
deriving Repr, DecidableEq

/-- The mutable store shared by the service: users, sessions, audit log. -/
structure Db where
  users : List UserRec
  sessions : List SessionRec
  auditLog : List AuditEntry
deriving Repr, DecidableEq

/-- The `NovaSanctumSecurityConfig` fields the modelled operations use. -/
structure Config where
  jwtSecret : String
  jwtExpiresIn : String
  refreshTokenExpiresIn : String
  sessionTimeoutMs : Nat
  maxLoginAttempts : Nat
  lockoutDurationMs : Nat
deriving Repr, DecidableEq

/-- The constructor defaults (no environment overrides). -/
def defaultConfig : Config where
  jwtSecret := "default-secret-change-in-production"
  jwtExpiresIn := "24h"
  refreshTokenExpiresIn := "7d"
  sessionTimeoutMs := 86400000
  maxLoginAttempts := 5
  lockoutDurationMs := 900000

/-- The sanitized user object returned by `verifyToken`. -/
structure NovaSanctumUser where
  id : String
  email : String
  username : String
  roles : List String
  permissions : List String
  isActive : Bool
  lastLoginAt : Option Nat
  createdAt : Nat
  updatedAt : Nat
deriving Repr, DecidableEq

/-- A signed JWT access token: `jwt.sign` packages the payload with the
signing secret and the computed expiry instant; verification checks the
secret and the expiry, exactly the observable behaviour the service relies
on. -/
structure AccessToken where
  userId : String
  typ : String
  secret : String
  expiresAt : Nat
deriving Repr, DecidableEq

/-- The `NovaSanctumToken` pair returned by `generateTokens`. -/
structure TokenPair where
  accessToken : AccessToken
  refreshToken : String
  expiresIn : Nat
  refreshExpiresIn : Nat
  tokenType : String
deriving Repr, DecidableEq

/-- Millisecond multiplier for a JWT duration unit character. -/
def unitMs (c : Char) : Option Nat :=
  if c = 's' then some 1000
  else if c = 'm' then some (60 * 1000)
  else if c = 'h' then some (60 * 60 * 1000)
  else if c = 'd' then some (24 * 60 * 60 * 1000)
  else none

/-- Numeric value of a digit list (the `parseInt` of the matched digits). -/
def digitsVal (cs : List Char) : Nat :=
  cs.foldl (fun a c => a * 10 + (c.toNat - 48)) 0

/-- `parseJwtExpiration`: matches `^(\d+)([smhd])$` and multiplies the
digits by the unit; throws `Invalid JWT expiration format` otherwise. -/
def parseJwtExpiration (s : String) : Except String Nat :=
  match s.data.getLast? with
  | none => .error "Invalid JWT expiration format"
  | some last =>
    match unitMs last with
    | none => .error "Invalid JWT expiration format"
    | some u =>
      let digits := s.data.dropLast
      if digits ≠ [] ∧ digits.all Char.isDigit then
        .ok (digitsVal digits * u)
      else .error "Invalid JWT expiration format"

/-- `jwt.sign` with payload `{userId, type}` and a TTL in milliseconds. -/
def jwtSign (userId typ secret : String) (now ttl : Nat) : AccessToken :=
  { userId := userId, typ := typ, secret := secret, expiresAt := now + ttl }

/-- `jwt.verify`: rejects a wrong secret or an expired token, otherwise
yields the decoded payload. -/
def jwtVerify (tok : AccessToken) (secret : String) (now : Nat) :
    Except String (String × String) :=
  if tok.secret ≠ secret then .error "JsonWebTokenError"
  else if tok.expiresAt ≤ now then .error "TokenExpiredError"
  else .ok (tok.userId, tok.typ)

/-- `generateTokens`: signs an access token, draws a fresh opaque refresh
token (`uuidv4`, passed in as `freshRefresh`) and reports both TTLs. -/
def generateTokens (cfg : Config) (userId : String) (now : Nat)
    (freshRefresh : String) : Except String TokenPair :=
  match parseJwtExpiration cfg.jwtExpiresIn with
  | .error e => .error e
  | .ok ttl =>
    match parseJwtExpiration cfg.refreshTokenExpiresIn with
    | .error e => .error e
    | .ok rttl =>
      .ok { accessToken := jwtSign userId "access" cfg.jwtSecret now ttl
            refreshToken := freshRefresh
            expiresIn := ttl
            refreshExpiresIn := rttl
            tokenType := "Bearer" }

/-- `verifyToken`: verify the JWT, re-fetch the user with roles and
permissions, reject a missing or inactive user; every failure is collapsed
to `Invalid token` by the surrounding catch. -/
def verifyToken (cfg : Config) (db : Db) (tok : AccessToken) (now : Nat) :
    Except String NovaSanctumUser :=
  match jwtVerify tok cfg.jwtSecret now with
  | .error _ => .error "Invalid token"
  | .ok (uid, _) =>
    match db.users.find? (fun u => u.id == uid) with
    | none => .error "Invalid token"
    | some u =>
      if !u.isActive then .error "Invalid token"
      else .ok
        { id := u.id
          email := u.email
          username := u.username
          roles := u.roles.map (fun r => r.name)
          permissions := u.roles.flatMap (fun r => r.permissions.map (fun p => p.name))
          isActive := u.isActive
          lastLoginAt := u.lastLoginAt
          createdAt := u.createdAt
          updatedAt := u.updatedAt }

/-- JavaScript `x || 'unknown'` on an optional string detail. -/
def jsOrUnknown (v : Option String) : String :=
  match v with
  | none => "unknown"
  | some s => if s = "" then "unknown" else s

/-- `logAuditEvent`: appends one immutable audit row. -/
def logAuditEvent (db : Db) (userId : Option String) (action resource : String)
    (details : List (String × String)) (now : Nat) : Db :=
  { db with auditLog := db.auditLog ++
      [{ userId := userId
         action := action
         resource := resource
         ipAddress := jsOrUnknown (details.lookup "ipAddress")
         userAgent := jsOrUnknown (details.lookup "userAgent")
         details := details
         timestamp := now }] }

/-- `logFailedLogin`: a `LOGIN_FAILED` audit row carrying the true reason. -/
def logFailedLogin (db : Db) (email ip ua reason : String) (now : Nat) : Db :=
  logAuditEvent db none "LOGIN_FAILED" "AUTH"
    [("email", email), ("ipAddress", ip), ("userAgent", ua),
     ("reason", reason), ("success", "false")] now

/-- `prisma.user.update where id`: rewrite the matching row in place. -/
def updateUser (db : Db) (uid : String) (f : UserRec → UserRec) : Db :=
  { db with users := db.users.map (fun u => if u.id == uid then f u else u) }

/-- `handleFailedLogin`: increment `failedLoginAttempts`, lock the account
with a cooldown deadline once the incremented counter reaches the
configured maximum, and record the failed login.  (Prisma's `update` throws
on a missing row; the orchestrator only calls this with an existing user,
so the missing-row branch leaves the store unchanged.) -/
def handleFailedLogin (cfg : Config) (db : Db) (userId email ip ua : String)
    (now : Nat) : Db :=
  let db1 := updateUser db userId
    (fun u => { u with failedLoginAttempts := u.failedLoginAttempts + 1 })
  let db2 :=
    match db1.users.find? (fun u => u.id == userId) with
    | none => db1
    | some u =>
      if u.failedLoginAttempts ≥ cfg.maxLoginAttempts then
        updateUser db1 userId
          (fun v => { v with
            isLocked := true
            lockedUntil := some (now + cfg.lockoutDurationMs) })
      else db1
  logFailedLogin db2 email ip ua "Invalid password" now

/-- `resetFailedLoginAttempts`: zero the counter, clear the lock. -/
def resetFailedLoginAttempts (db : Db) (userId : String) : Db :=
  updateUser db userId (fun u => { u with
    failedLoginAttempts := 0
    isLocked := false
    lockedUntil := none })

/-- `createSession`: store the hash of the refresh token with a fresh id. -/
def createSession (cfg : Config) (hashToken : String → String) (db : Db)
    (userId refreshToken ip ua : String) (now : Nat) (freshId : String) : Db :=
  { db with sessions := db.sessions ++
      [{ id := freshId
         userId := userId
         refreshToken := hashToken refreshToken
         ipAddress := ip
         userAgent := ua
         isActive := true
         expiresAt := now + cfg.sessionTimeoutMs
         createdAt := now }] }

/-- `updateSession` (the rotation step): replace the stored hash and
extend the expiry of the addressed session. -/
def updateSession (cfg : Config) (hashToken : String → String) (db : Db)
    (sessionId refreshToken : String) (now : Nat) : Db :=
  { db with sessions := db.sessions.map (fun s =>
      if s.id == sessionId then
        { s with
          refreshToken := hashToken refreshToken
          expiresAt := now + cfg.sessionTimeoutMs }
      else s) }

/-- `updateLastLogin`: stamp the successful login time. -/
def updateLastLogin (db : Db) (userId : String) (now : Nat) : Db :=
  updateUser db userId (fun u => { u with lastLoginAt := some now })

/-- The session lookup at the head of `refreshToken`: find the first
session whose stored hash matches the hashed input and which is active and
strictly unexpired (`expiresAt > now`). -/
def findActiveByRawToken (hashToken : String → String) (db : Db)
    (raw : String) (now : Nat) : Option SessionRec :=
  db.sessions.find? (fun s =>
    s.refreshToken == hashToken raw && s.isActive && decide (now < s.expiresAt))

/-- `authenticateUser`: the login orchestration — lookup by email, lock
check, bcrypt comparison (`verifyPassword`), then reset, token issuance,
session creation, last-login stamp and audit write.  Returns the external
result together with the updated store. -/
def authenticateUser (cfg : Config) (verifyPassword : String → String → Bool)
    (hashToken : String → String) (db : Db)
    (email password ipAddress userAgent : String) (now : Nat)
    (freshRefresh freshSessionId : String) :
    Except String TokenPair × Db :=
  match db.users.find? (fun u => u.email == email) with
  | none =>
    (.error "Invalid credentials",
     logFailedLogin db email ipAddress userAgent "User not found" now)
  | some user =>
    if user.isLocked then
      (.error "Account is locked due to multiple failed login attempts",
       logFailedLogin db email ipAddress userAgent "Account locked" now)
    else if !verifyPassword password user.password then
      (.error "Invalid credentials",
       handleFailedLogin cfg db user.id email ipAddress userAgent now)
    else
      let db1 := resetFailedLoginAttempts db user.id
      match generateTokens cfg user.id now freshRefresh with
      | .error e => (.error e, db1)
      | .ok tokens =>
        let db2 := createSession cfg hashToken db1 user.id tokens.refreshToken
          ipAddress userAgent now freshSessionId
        let db3 := updateLastLogin db2 user.id now
        let db4 := logAuditEvent db3 (some user.id) "LOGIN" "AUTH"
          [("email", email), ("ipAddress", ipAddress),
           ("userAgent", userAgent), ("success", "true")] now
        (.ok tokens, db4)

/-- `refreshToken`: look up the session by hashed token, log (but do not
act on) an IP mismatch, issue new tokens, rotate the session, audit. -/
def refreshToken (cfg : Config) (hashToken : String → String) (db : Db)
    (raw ipAddress : String) (now : Nat) (freshRefresh : String) :
    Except String TokenPair × Db :=
  match findActiveByRawToken hashToken db raw now with
  | none => (.error "Invalid or expired refresh token", db)
  | some session =>
    let db1 :=
      if session.ipAddress ≠ ipAddress then
        logAuditEvent db (some session.userId) "REFRESH_TOKEN_IP_MISMATCH"
          "AUTH" [("sessionIp", session.ipAddress),
                  ("requestIp", ipAddress)] now
      else db
    match generateTokens cfg session.userId now freshRefresh with
    | .error e => (.error e, db1)
    | .ok tokens =>
      let db2 := updateSession cfg hashToken db1 session.id
        tokens.refreshToken now
      let db3 := logAuditEvent db2 (some session.userId) "TOKEN_REFRESH"
        "AUTH" [("ipAddress", ipAddress), ("success", "true")] now
      (.ok tokens, db3)

/-- `hasRole`: membership of one role name. -/
def hasRole (user : NovaSanctumUser) (role : String) : Bool :=
  user.roles.contains role

/-- `hasAnyRole`: OR over the listed roles. -/
def hasAnyRole (user : NovaSanctumUser) (roles : List String) : Bool :=
  roles.any (fun role => user.roles.contains role)

/-- `hasPermission`: membership of one permission name. -/
def hasPermission (user : NovaSanctumUser) (permission : String) : Bool :=
  user.permissions.contains permission

/-- `hasAllPermissions`: AND over the listed permissions. -/
def hasAllPermissions (user : NovaSanctumUser) (permissions : List String) : Bool :=
  permissions.all (fun permission => user.permissions.contains permission)

/-- Outcome of an Express middleware: `next()` with no argument (request
allowed through), or `next(err)` with an `AuthenticationError` (401) or an
`AuthorizationError` (403). -/
inductive MwOutcome where
  | next
  | nextAuthenticationError (msg : String)
  | nextAuthorizationError (msg : String)
deriving Repr, DecidableEq

/-- The request fields the authorization middleware reads: route params,
parsed body (both string-valued maps) and the identity attached by
`authenticateToken`. -/
structure Req where
  params : List (String × String)
  body : List (String × String)
  user : Option NovaSanctumUser
deriving Repr, DecidableEq

/-- JavaScript `a || b` on two optional strings (an empty string is falsy
and falls through to `b`). -/
def jsOr (a b : Option String) : Option String :=
  match a with
  | some s => if s = "" then b else some s
  | none => b

/-- `req.params[ownerIdField] || req.body[ownerIdField]` in
`requireOwnerOrAdmin`. -/
def resourceOwnerId (req : Req) (ownerIdField : String) : Option String :=
  jsOr (req.params.lookup ownerIdField) (req.body.lookup ownerIdField)

/-- `requireOwnerOrAdmin(ownerIdField)`: admin role first, then strict
equality of the identity's id with the resolved owner id, else 403. -/
def requireOwnerOrAdmin (ownerIdField : String) (req : Req) : MwOutcome :=
  match req.user with
  | none => .nextAuthenticationError "Authentication required"
  | some user =>
    if hasRole user "admin" then .next
    else if some user.id = resourceOwnerId req ownerIdField then .next
    else .nextAuthorizationError "Access denied"

/-- `requirePermissions(permissions)`: all listed permissions must be held. -/
def requirePermissions (permissions : List String) (req : Req) : MwOutcome :=
  match req.user with
  | none => .nextAuthenticationError "Authentication required"
  | some user =>
    if !hasAllPermissions user permissions then
      .nextAuthorizationError "Insufficient permissions"
    else .next

/-! Concrete instantiations of the external primitives and store fixtures,
used to evaluate the modelled operations at specific inputs. -/

/-- Plaintext-equality stand-in for `bcrypt.compare` in concrete runs. -/
def strEqCompare : String → String → Bool := fun p h => p == h

/-- Injective stand-in for the SHA-256 hex digest in concrete runs. -/
def idHash : String → String := fun s => s

def activeUser : UserRec :=
  { id := "u1", email := "a@x.com", username := "alice", password := "P1",
    roles := [], isActive := true, isLocked := false, lockedUntil := none,
    failedLoginAttempts := 0, lastLoginAt := none, createdAt := 0,
    updatedAt := 0 }

def activeDb : Db := { users := [activeUser], sessions := [], auditLog := [] }

def lockedUser : UserRec :=
  { activeUser with
    isLocked := true
    lockedUntil := some 5
    failedLoginAttempts := 5 }

def lockedDb : Db := { users := [lockedUser], sessions := [], auditLog := [] }

def inactiveUser : UserRec := { activeUser with isActive := false }

def inactiveDb : Db :=
  { users := [inactiveUser], sessions := [], auditLog := [] }

def nearLockUser : UserRec := { activeUser with failedLoginAttempts := 4 }

def nearLockDb : Db :=
  { users := [nearLockUser], sessions := [], auditLog := [] }

def rotSession : SessionRec :=
  { id := "s1", userId := "u1", refreshToken := "old",
    ipAddress := "1.1.1.1", userAgent := "ua", isActive := true,
    expiresAt := 1000, createdAt := 0 }

def rotDb : Db :=
  { users := [activeUser], sessions := [rotSession], auditLog := [] }

def atExpirySession : SessionRec := { rotSession with expiresAt := 100 }

def atExpiryDb : Db :=
  { users := [], sessions := [atExpirySession], auditLog := [] }

/-- The token pair `generateTokens` produces under the default
configuration. -/
def sampleTokens (uid : String) (now : Nat) (r : String) : TokenPair :=
  { accessToken := jwtSign uid "access" defaultConfig.jwtSecret now 86400000
    refreshToken := r
    expiresIn := 86400000
    refreshExpiresIn := 604800000
    tokenType := "Bearer" }

def ownerUser : NovaSanctumUser :=
  { id := "u1", email := "a@x.com", username := "alice", roles := ["user"],
    permissions := [], isActive := true, lastLoginAt := none, createdAt := 0,
    updatedAt := 0 }

def ownerReq : Req :=
  { params := [("userId", "u1")], body := [], user := some ownerUser }

def otherOwnerReq : Req :=
  { params := [("userId", "u2")], body := [], user := some ownerUser }

/-! Helper lemmas shared by the claim theorems. -/

theorem find?_map_pred {α : Type} (p : α → Bool) (g : α → α)
    (hg : ∀ a, p (g a) = p a) (l : List α) :
    (l.map g).find? p = (l.find? p).map g := by
  rw [List.find?_map]
  have : p ∘ g = p := funext hg
  rw [this]

theorem updateUser_find? (db : Db) (uid : String) (f : UserRec → UserRec)
    (hf : ∀ u, (f u).id = u.id) (u : UserRec)
    (hu : db.users.find? (fun v => v.id == uid) = some u) :
    (updateUser db uid f).users.find? (fun v => v.id == uid) = some (f u) := by
  unfold updateUser
  simp only
  rw [find?_map_pred (fun v => v.id == uid)
    (fun v => if v.id == uid then f v else v) ?hg db.users]
  case hg =>
    intro a
    by_cases h : (a.id == uid) = true
    · simp [h, hf]
    · simp [h]
  rw [hu]
  have hid := List.find?_some hu
  simp only [] at hid
  simp [hid]
  intro h
  exact absurd (eq_of_beq hid) h

theorem logFailedLogin_users (db : Db) (email ip ua reason : String)
    (now : Nat) : (logFailedLogin db email ip ua reason now).users = db.users :=
  rfl

theorem logFailedLogin_last (db : Db) (email ip ua reason : String)
    (now : Nat) :
    ∃ e, (logFailedLogin db email ip ua reason now).auditLog.getLast? =
        some e ∧
      e.action = "LOGIN_FAILED" ∧ e.details.lookup "reason" = some reason := by
  unfold logFailedLogin logAuditEvent
  exact ⟨_, List.getLast?_concat _, rfl, rfl⟩

/-- C1 (code bug): at time 100 the stored user `a@x.com` is locked with
`lockedUntil = 5`, so its cooldown has elapsed, and the login presents the
correct password; the claim says the lockout check treats the account as
unlocked (lazy expiry) and the login succeeds, but `authenticateUser`
consults only the persistent `isLocked` flag and never reads `lockedUntil`,
so the attempt still fails with the locked-account error. -/
theorem authenticateUser_ignores_elapsed_lockout :
    lockedUser.lockedUntil = some 5 ∧ (5 : Nat) < 100 ∧
    strEqCompare "P1" lockedUser.password = true ∧
    (authenticateUser defaultConfig strEqCompare idHash lockedDb
        "a@x.com" "P1" "203.0.113.7" "ua" 100 "r1" "s1").fst =
      .error "Account is locked due to multiple failed login attempts" :=
  ⟨rfl, by decide, rfl, rfl⟩

/-- C2 counterexample: two failed logins whose true causes differ
(user-not-found versus account-locked) yield different external errors, so
the three failure causes do not all collapse into one generic message. -/
theorem authenticateUser_lock_error_distinct :
    (authenticateUser defaultConfig strEqCompare idHash lockedDb
        "nobody@x.com" "P1" "ip" "ua" 100 "r1" "s1").fst =
      .error "Invalid credentials" ∧
    (authenticateUser defaultConfig strEqCompare idHash lockedDb
        "a@x.com" "P1" "ip" "ua" 100 "r1" "s1").fst =
      .error "Account is locked due to multiple failed login attempts" ∧
    ("Invalid credentials" : String) ≠
      "Account is locked due to multiple failed login attempts" :=
  ⟨rfl, rfl, by decide⟩

/-- C2 (amended): user-not-found and wrong-password failures both return
the same generic `Invalid credentials` error, while an account-locked
failure returns the distinct locked-account error; in every failure case
the true cause is recorded in the `reason` detail of the `LOGIN_FAILED`
audit entry appended by the attempt. -/
theorem authenticateUser_failure_disclosure (cfg : Config)
    (vp : String → String → Bool) (hash : String → String) (db : Db)
    (email password ip ua : String) (now : Nat) (r sid : String) :
    (db.users.find? (fun u => u.email == email) = none →
      (authenticateUser cfg vp hash db email password ip ua now r sid).fst =
        .error "Invalid credentials" ∧
      ∃ e, (authenticateUser cfg vp hash db email password ip ua now r
          sid).snd.auditLog.getLast? = some e ∧
        e.action = "LOGIN_FAILED" ∧
        e.details.lookup "reason" = some "User not found") ∧
    (∀ u, db.users.find? (fun v => v.email == email) = some u →
      u.isLocked = true →
      (authenticateUser cfg vp hash db email password ip ua now r sid).fst =
        .error "Account is locked due to multiple failed login attempts" ∧
      ∃ e, (authenticateUser cfg vp hash db email password ip ua now r
          sid).snd.auditLog.getLast? = some e ∧
        e.action = "LOGIN_FAILED" ∧
        e.details.lookup "reason" = some "Account locked") ∧
    (∀ u, db.users.find? (fun v => v.email == email) = some u →
      u.isLocked = false → vp password u.password = false →
      (authenticateUser cfg vp hash db email password ip ua now r sid).fst =
        .error "Invalid credentials" ∧
      ∃ e, (authenticateUser cfg vp hash db email password ip ua now r
          sid).snd.auditLog.getLast? = some e ∧
        e.action = "LOGIN_FAILED" ∧
        e.details.lookup "reason" = some "Invalid password") := by
  refine ⟨?_, ?_, ?_⟩
  · intro h
    unfold authenticateUser
    rw [h]
    exact ⟨rfl, logFailedLogin_last db email ip ua "User not found" now⟩
  · intro u hu hlock
    unfold authenticateUser
    rw [hu]
    simp only [hlock, if_true]
    exact ⟨trivial, logFailedLogin_last db email ip ua "Account locked" now⟩
  · intro u hu hlock hpw
    unfold authenticateUser
    rw [hu]
    simp only [hlock, hpw, Bool.false_eq_true, if_false, Bool.not_false,
      if_true]
    exact ⟨trivial, logFailedLogin_last _ email ip ua "Invalid password" now⟩

/-- C2 witness: the user-not-found conjunct of the amended disclosure
theorem evaluated on a store that has no user with the attempted email. -/
theorem authenticateUser_failure_disclosure_witness :
    (authenticateUser defaultConfig strEqCompare idHash activeDb
        "missing@x.com" "P1" "ip" "ua" 100 "r1" "s1").fst =
      .error "Invalid credentials" ∧
    ∃ e, (authenticateUser defaultConfig strEqCompare idHash activeDb
        "missing@x.com" "P1" "ip" "ua" 100 "r1" "s1").snd.auditLog.getLast? =
        some e ∧
      e.action = "LOGIN_FAILED" ∧
      e.details.lookup "reason" = some "User not found" :=
  (authenticateUser_failure_disclosure defaultConfig strEqCompare idHash
    activeDb "missing@x.com" "P1" "ip" "ua" 100 "r1" "s1").1 rfl

/-- C10: the conjunction over an empty permission list is vacuously true,
so `hasAllPermissions(user, [])` holds for every user and the
`requirePermissions([])` guard admits any authenticated request. -/
theorem hasAllPermissions_nil_admits (user : NovaSanctumUser) (req : Req)
    (hreq : req.user = some user) :
    hasAllPermissions user [] = true ∧ requirePermissions [] req = .next := by
  refine ⟨rfl, ?_⟩
  unfold requirePermissions
  rw [hreq]
  rfl

/-- C10 witness: the empty-permission guard admits a concrete
authenticated request. -/
theorem hasAllPermissions_nil_admits_witness :
    hasAllPermissions ownerUser [] = true ∧
    requirePermissions [] ownerReq = .next :=
  hasAllPermissions_nil_admits ownerUser ownerReq rfl

/-- C7: for an authenticated request, `requireOwnerOrAdmin` calls `next()`
exactly when the identity has the `admin` role or its id equals the
resolved owner id of the resource (strict equality), and every other
authenticated case yields the `Access denied` authorization error. -/
theorem requireOwnerOrAdmin_admin_or_owner (field : String) (req : Req)
    (user : NovaSanctumUser) (hreq : req.user = some user) :
    (requireOwnerOrAdmin field req = .next ↔
      hasRole user "admin" = true ∨ some user.id = resourceOwnerId req field) ∧
    (requireOwnerOrAdmin field req ≠ .next →
      requireOwnerOrAdmin field req =
        .nextAuthorizationError "Access denied") := by
  unfold requireOwnerOrAdmin
  rw [hreq]
  by_cases hadm : hasRole user "admin" = true
  · simp [hadm]
  · by_cases hown : some user.id = resourceOwnerId req field
    · simp [hadm, hown]
    · simp [hadm, hown]

/-- C7 witness: a non-admin identity is admitted for a resource whose
`userId` param equals its own id. -/
theorem requireOwnerOrAdmin_admin_or_owner_witness :
    requireOwnerOrAdmin "userId" ownerReq = MwOutcome.next :=
  (requireOwnerOrAdmin_admin_or_owner "userId" ownerReq ownerUser rfl).1.mpr
    (Or.inr rfl)

/-- C3: after `updateSession` (rotation) replaces session `sessionId`'s
stored hash with the hash of a new refresh token, the previous raw token no
longer resolves through `findActiveByRawToken`, provided the hash is
injective, the new token differs from the old one, and no other session
row stores the old token's hash. -/
theorem rotate_single_use (cfg : Config) (hash : String → String) (db : Db)
    (sessionId oldRaw newRaw : String) (now t : Nat)
    (hinj : Function.Injective hash) (hne : oldRaw ≠ newRaw)
    (huniq : ∀ s ∈ db.sessions, s.refreshToken = hash oldRaw →
      s.id = sessionId) :
    findActiveByRawToken hash (updateSession cfg hash db sessionId newRaw now)
      oldRaw t = none := by
  unfold findActiveByRawToken updateSession
  simp only
  rw [List.find?_eq_none]
  intro s' hs'
  rw [List.mem_map] at hs'
  obtain ⟨s, hs, hgs⟩ := hs'
  by_cases hid : (s.id == sessionId) = true
  · simp only [hid, if_true] at hgs
    intro hc
    simp only [Bool.and_eq_true] at hc
    obtain ⟨⟨h1, _⟩, _⟩ := hc
    rw [← hgs] at h1
    simp only [beq_iff_eq] at h1
    exact hne (hinj h1).symm
  · simp only [hid, if_false] at hgs
    subst hgs
    intro hc
    simp only [Bool.and_eq_true] at hc
    obtain ⟨⟨h1, _⟩, _⟩ := hc
    simp only [beq_iff_eq] at h1
    have := huniq s hs h1
    rw [this] at hid
    simp at hid

/-- C3 witness: rotating the only session holding the hash of `old` makes
a later lookup of `old` fail. -/
theorem rotate_single_use_witness :
    findActiveByRawToken idHash
      (updateSession defaultConfig idHash rotDb "s1" "new" 50) "old" 60 =
      none :=
  rotate_single_use defaultConfig idHash rotDb "s1" "old" "new" 50 60
    (by intro a b h; exact h) (by decide) (by decide)

/-- C6: a refresh token whose matching sessions all expire exactly at the
current time is rejected: the lookup requires `expiresAt > now` strictly,
so the refresh fails with the invalid-or-expired error. -/
theorem refresh_at_exact_expiry_rejected (cfg : Config)
    (hash : String → String) (db : Db) (raw ip : String) (now : Nat)
    (fresh : String)
    (hexp : ∀ s ∈ db.sessions, s.refreshToken = hash raw →
      s.expiresAt = now) :
    (refreshToken cfg hash db raw ip now fresh).fst =
      .error "Invalid or expired refresh token" := by
  have hnone : findActiveByRawToken hash db raw now = none := by
    unfold findActiveByRawToken
    rw [List.find?_eq_none]
    intro s hs hc
    simp only [Bool.and_eq_true, beq_iff_eq, decide_eq_true_eq] at hc
    obtain ⟨⟨h1, _⟩, h3⟩ := hc
    have := hexp s hs h1
    omega
  unfold refreshToken
  rw [hnone]

/-- C6 witness: a session whose `expiresAt` equals the current time 100 is
not accepted for refresh. -/
theorem refresh_at_exact_expiry_rejected_witness :
    (refreshToken defaultConfig idHash atExpiryDb "old" "1.1.1.1" 100
        "r2").fst = .error "Invalid or expired refresh token" :=
  refresh_at_exact_expiry_rejected defaultConfig idHash atExpiryDb "old"
    "1.1.1.1" 100 "r2" (by decide)

/-- C4: a failed password check increments `failedLoginAttempts` by exactly
one; when the incremented counter reaches the configured maximum the
account is locked with `lockedUntil = now + lockoutDurationMs`, and below
the maximum `isLocked` and `lockedUntil` are untouched. -/
theorem handleFailedLogin_increments_and_locks (cfg : Config) (db : Db)
    (uid email ip ua : String) (now : Nat) (u : UserRec)
    (hu : db.users.find? (fun v => v.id == uid) = some u) :
    ∃ u', (handleFailedLogin cfg db uid email ip ua now).users.find?
        (fun v => v.id == uid) = some u' ∧
      u'.failedLoginAttempts = u.failedLoginAttempts + 1 ∧
      (u.failedLoginAttempts + 1 ≥ cfg.maxLoginAttempts →
        u'.isLocked = true ∧
        u'.lockedUntil = some (now + cfg.lockoutDurationMs)) ∧
      (u.failedLoginAttempts + 1 < cfg.maxLoginAttempts →
        u'.isLocked = u.isLocked ∧ u'.lockedUntil = u.lockedUntil) := by
  have h1 := updateUser_find? db uid
    (fun v => { v with failedLoginAttempts := v.failedLoginAttempts + 1 })
    (fun v => rfl) u hu
  simp only [handleFailedLogin, logFailedLogin_users]
  rw [h1]
  dsimp only
  by_cases hth : u.failedLoginAttempts + 1 ≥ cfg.maxLoginAttempts
  · rw [if_pos hth]
    have h2 := updateUser_find?
      (updateUser db uid
        (fun v => { v with failedLoginAttempts := v.failedLoginAttempts + 1 }))
      uid
      (fun v => { v with
        isLocked := true
        lockedUntil := some (now + cfg.lockoutDurationMs) })
      (fun v => rfl) _ h1
    refine ⟨_, h2, rfl, fun _ => ⟨rfl, rfl⟩, fun hlt => absurd hth (by omega)⟩
  · rw [if_neg hth]
    exact ⟨_, h1, rfl, fun hge => absurd hge hth, fun _ => ⟨rfl, rfl⟩⟩

/-- C4 witness: with the default threshold 5, the fifth failure (counter
4 → 5) locks the concrete account and stamps the cooldown deadline. -/
theorem handleFailedLogin_increments_and_locks_witness :
    ∃ u', (handleFailedLogin defaultConfig nearLockDb "u1" "a@x.com" "ip"
        "ua" 100).users.find? (fun v => v.id == "u1") = some u' ∧
      u'.failedLoginAttempts = nearLockUser.failedLoginAttempts + 1 ∧
      (nearLockUser.failedLoginAttempts + 1 ≥
          defaultConfig.maxLoginAttempts →
        u'.isLocked = true ∧
        u'.lockedUntil = some (100 + defaultConfig.lockoutDurationMs)) ∧
      (nearLockUser.failedLoginAttempts + 1 <
          defaultConfig.maxLoginAttempts →
        u'.isLocked = nearLockUser.isLocked ∧
        u'.lockedUntil = nearLockUser.lockedUntil) :=
  handleFailedLogin_increments_and_locks defaultConfig nearLockDb "u1"
    "a@x.com" "ip" "ua" 100 nearLockUser rfl

/-- C5: issuing tokens for an existing active user id and then verifying
the resulting unexpired access token yields a user object carrying the
same id (issue/verify round-trip). -/
theorem issue_verify_roundtrip (cfg : Config) (db : Db) (uid : String)
    (now t : Nat) (fresh : String) (tp : TokenPair) (u : UserRec)
    (hgen : generateTokens cfg uid now fresh = .ok tp)
    (hu : db.users.find? (fun v => v.id == uid) = some u)
    (hact : u.isActive = true)
    (hunexp : t < tp.accessToken.expiresAt) :
    ∃ nu, verifyToken cfg db tp.accessToken t = .ok nu ∧ nu.id = uid := by
  unfold generateTokens at hgen
  cases h1 : parseJwtExpiration cfg.jwtExpiresIn with
  | error e => rw [h1] at hgen; exact absurd hgen (by simp)
  | ok ttl =>
    cases h2 : parseJwtExpiration cfg.refreshTokenExpiresIn with
    | error e => rw [h1, h2] at hgen; exact absurd hgen (by simp)
    | ok rttl =>
      rw [h1, h2] at hgen
      simp only [Except.ok.injEq] at hgen
      subst hgen
      simp only [jwtSign] at hunexp
      unfold verifyToken jwtVerify
      simp only [jwtSign]
      rw [if_neg (fun h => h rfl)]
      rw [if_neg (by omega)]
      dsimp only
      rw [hu]
      simp only [hact, Bool.not_true, Bool.false_eq_true, if_false]
      refine ⟨_, rfl, ?_⟩
      have hid := List.find?_some hu
      simp only [] at hid
      exact eq_of_beq hid

/-- C5 witness: the round-trip at a concrete active user under the default
configuration, verified at time 10 well before expiry. -/
theorem issue_verify_roundtrip_witness :
    ∃ nu, verifyToken defaultConfig activeDb
        (sampleTokens "u1" 0 "r1").accessToken 10 = .ok nu ∧
      nu.id = "u1" :=
  issue_verify_roundtrip defaultConfig activeDb "u1" 0 10 "r1"
    (sampleTokens "u1" 0 "r1") activeUser rfl rfl rfl (by decide)

/-- C8: when the request IP differs from the session's stored IP, the
refresh writes a `REFRESH_TOKEN_IP_MISMATCH` audit event but still
succeeds: the same token pair is issued and the resulting session store is
identical to the matching-IP run (soft signal only). -/
theorem refresh_ip_mismatch_is_soft (cfg : Config) (hash : String → String)
    (db : Db) (raw ip : String) (now : Nat) (fresh : String)
    (s : SessionRec) (tp : TokenPair)
    (hfind : findActiveByRawToken hash db raw now = some s)
    (hmis : s.ipAddress ≠ ip)
    (hgen : generateTokens cfg s.userId now fresh = .ok tp) :
    (refreshToken cfg hash db raw ip now fresh).fst = .ok tp ∧
    (∃ e ∈ (refreshToken cfg hash db raw ip now fresh).snd.auditLog,
      e.action = "REFRESH_TOKEN_IP_MISMATCH") ∧
    (refreshToken cfg hash db raw s.ipAddress now fresh).fst = .ok tp ∧
    (refreshToken cfg hash db raw ip now fresh).snd.sessions =
      (refreshToken cfg hash db raw s.ipAddress now fresh).snd.sessions := by
  unfold refreshToken
  rw [hfind]
  dsimp only
  rw [if_pos hmis, if_neg (fun h => h rfl)]
  rw [hgen]
  dsimp only
  refine ⟨rfl, ?_, rfl, ?_⟩
  · simp only [logAuditEvent, updateSession]
    refine ⟨_, List.mem_append_left _
      (List.mem_append_right _ (List.mem_singleton_self _)), rfl⟩
  · simp only [logAuditEvent, updateSession]

/-- C8 witness: a concrete refresh from a different IP than the session's
stored one still succeeds, records the mismatch event, and rotates the
session exactly as the matching-IP refresh would. -/
theorem refresh_ip_mismatch_is_soft_witness :
    (refreshToken defaultConfig idHash rotDb "old" "2.2.2.2" 50
        "r2").fst = .ok (sampleTokens "u1" 50 "r2") ∧
    (∃ e ∈ (refreshToken defaultConfig idHash rotDb "old" "2.2.2.2" 50
        "r2").snd.auditLog, e.action = "REFRESH_TOKEN_IP_MISMATCH") ∧
    (refreshToken defaultConfig idHash rotDb "old" rotSession.ipAddress 50
        "r2").fst = .ok (sampleTokens "u1" 50 "r2") ∧
    (refreshToken defaultConfig idHash rotDb "old" "2.2.2.2" 50
        "r2").snd.sessions =
      (refreshToken defaultConfig idHash rotDb "old" rotSession.ipAddress 50
        "r2").snd.sessions :=
  refresh_ip_mismatch_is_soft defaultConfig idHash rotDb "old" "2.2.2.2" 50
    "r2" rotSession (sampleTokens "u1" 50 "r2") rfl (by decide) rfl

/-- C9: a stored user with a matching password and a cleared `isLocked`
flag is issued a token pair and gets a session created no matter what
`isActive` holds — `authenticateUser` never checks the active flag, so a
deactivated user can still log in (exhibited in the witness). -/
theorem authenticateUser_ignores_isActive (cfg : Config)
    (vp : String → String → Bool) (hash : String → String) (db : Db)
    (email password ip ua : String) (now : Nat) (r sid : String)
    (u : UserRec) (tp : TokenPair)
    (hu : db.users.find? (fun v => v.email == email) = some u)
    (hlock : u.isLocked = false)
    (hpw : vp password u.password = true)
    (hgen : generateTokens cfg u.id now r = .ok tp) :
    (authenticateUser cfg vp hash db email password ip ua now r sid).fst =
      .ok tp ∧
    ∃ s ∈ (authenticateUser cfg vp hash db email password ip ua now r
        sid).snd.sessions, s.userId = u.id ∧
      s.refreshToken = hash tp.refreshToken := by
  unfold authenticateUser
  rw [hu]
  dsimp only
  simp only [hlock, Bool.false_eq_true, if_false, hpw, Bool.not_true]
  rw [hgen]
  dsimp only
  refine ⟨rfl, ?_⟩
  simp only [createSession, updateLastLogin, updateUser, logAuditEvent,
    resetFailedLoginAttempts]
  exact ⟨_, List.mem_append_right _ (List.mem_singleton_self _), rfl, rfl⟩

/-- C9 witness: a deactivated (`isActive = false`) but unlocked user with
the correct password obtains tokens and a fresh session. -/
theorem authenticateUser_ignores_isActive_witness :
    (authenticateUser defaultConfig strEqCompare idHash inactiveDb
        "a@x.com" "P1" "ip" "ua" 100 "r1" "s1").fst =
      .ok (sampleTokens "u1" 100 "r1") ∧
    ∃ s ∈ (authenticateUser defaultConfig strEqCompare idHash inactiveDb
        "a@x.com" "P1" "ip" "ua" 100 "r1" "s1").snd.sessions,
      s.userId = inactiveUser.id ∧
      s.refreshToken = idHash (sampleTokens "u1" 100 "r1").refreshToken :=
  authenticateUser_ignores_isActive defaultConfig strEqCompare idHash
    inactiveDb "a@x.com" "P1" "ip" "ua" 100 "r1" "s1" inactiveUser
    (sampleTokens "u1" 100 "r1") rfl rfl rfl rfl

end NovaSanctum
